import Mathlib

/-
  Verification development for the cb-event-forwarder bundle-delivery core.

  Shallow embedding of:
    * config.go          — `ParseConfig` and its helpers (ini-driven configuration parsing)
    * http_output.go     — `HttpBehavior` (Initialize / Upload / request construction)
    * splunk_output.go   — `SplunkBehavior` (Initialize / Upload / request construction)
    * the Go standard-library pieces these depend on: `strconv.ParseBool`,
      `strconv.ParseInt`/`Atoi` (base 10, 64-bit), `text/template` evaluation for the
      fixed templates appearing in the source, `time.Duration` arithmetic (int64
      nanoseconds, wrapping on overflow), `strings.TrimSpace` / `ToLower`
      (modelled for ASCII input, which is all the configuration keys use).

  Conventions:
    * Go `nil` pointers are `Option.none`; dereferencing a nil pointer (a panic in Go)
      is modelled by an `Option` result of the surrounding function.
    * Go zero values are the structure-field defaults.
    * `error` results are `Option String` holding `err.Error()` text (`none` = nil).
-/

/-- A parsed ini file as produced by `ini.LoadFile` (go-ini): a finite map from
(section, key) to value, represented as an association list without duplicate keys.
`ini.LoadFile` I/O errors are outside the embedding: the parsed file is the input. -/
def IniFile := List ((String × String) × String)

/-- `input.Get(section, key)` of go-ini: the `(value, ok)` pair as an `Option`. -/
def iniGet : IniFile → String → String → Option String
  | [], _, _ => none
  | e :: t, sec, key => if e.1.1 = sec ∧ e.1.2 = key then some e.2 else iniGet t sec key

/-- Removes one (section, key) entry; used to state that a field of the parse result
does not influence another part of the result. -/
def eraseKey : IniFile → String → String → IniFile
  | [], _, _ => []
  | e :: t, sec, key => if e.1.1 = sec ∧ e.1.2 = key then eraseKey t sec key else e :: eraseKey t sec key

/-- Go `strconv.ParseBool`: accepts exactly 1, t, T, TRUE, true, True, 0, f, F, FALSE,
false, False; anything else is an error (`none`). -/
def parseBool (s : String) : Option Bool :=
  if s = "1" ∨ s = "t" ∨ s = "T" ∨ s = "TRUE" ∨ s = "true" ∨ s = "True" then some true
  else if s = "0" ∨ s = "f" ∨ s = "F" ∨ s = "FALSE" ∨ s = "false" ∨ s = "False" then some false
  else none

/-- Decimal digit run accumulator for `strconv.ParseInt` (base 10: ASCII digits only,
no underscores). `none` on any non-digit. -/
def digitsToNat : List Char → Nat → Option Nat
  | [], acc => some acc
  | c :: cs, acc =>
    if c.isDigit then digitsToNat cs (acc * 10 + (c.toNat - '0'.toNat)) else none

/-- Go `strconv.ParseInt(s, 10, 64)`: optional sign, at least one digit, result within
int64 range; out-of-range input is an error (`ErrRange`, so `err != nil`, hence `none`). -/
def parseInt64 (s : String) : Option Int :=
  let signAndDigits : Bool × List Char :=
    match s.data with
    | '+' :: r => (false, r)
    | '-' :: r => (true, r)
    | r => (false, r)
  match signAndDigits with
  | (neg, ds) =>
    if ds.isEmpty then none
    else
      match digitsToNat ds 0 with
      | none => none
      | some n =>
        if neg then
          if n ≤ 2 ^ 63 then some (-(n : Int)) else none
        else
          if n ≤ 2 ^ 63 - 1 then some (n : Int) else none

/-- Go `strconv.Atoi` on a 64-bit platform: `ParseInt(s, 10, 0)` with int = int64. -/
def atoi (s : String) : Option Int := parseInt64 s

/-- Reduce an integer into int64 two's-complement range, as Go's defined signed
overflow wrapping does. -/
def wrapInt64 (x : Int) : Int := (x + 2 ^ 63) % 2 ^ 64 - 2 ^ 63

/-- Go int64 multiplication (wraps on overflow). -/
def int64Mul (a b : Int) : Int := wrapInt64 (a * b)

/-- `time.Second` in `time.Duration` units (int64 nanoseconds). -/
def timeSecond : Int := 1000000000

/-- `time.Minute` in `time.Duration` units. -/
def timeMinute : Int := 60 * timeSecond

/-- ASCII lowering of one character — `strings.ToLower` restricted to ASCII, which is
all the `output_type`/`output_format` comparisons need. -/
def asciiLower (c : Char) : Char :=
  if 'A' ≤ c ∧ c ≤ 'Z' then Char.ofNat (c.toNat + 32) else c

/-- `strings.ToLower` (ASCII model), written so the kernel can evaluate it. -/
def strToLower (s : String) : String := ⟨s.data.map asciiLower⟩

/-- The white-space set of `strings.TrimSpace` (ASCII part). -/
def isSpaceChar (c : Char) : Bool :=
  c = ' ' ∨ c = '\t' ∨ c = '\n' ∨ c = '\x0b' ∨ c = '\x0c' ∨ c = '\r'

/-- Drop leading white space from a character list. -/
def trimLeftChars : List Char → List Char
  | [] => []
  | c :: r => if isSpaceChar c then trimLeftChars r else c :: r

/-- `strings.TrimSpace` (ASCII model): drop trailing then leading white space. -/
def strTrim (s : String) : String :=
  ⟨trimLeftChars (trimLeftChars s.data.reverse).reverse⟩

/-- The normalization `ParseConfig` applies to `output_type` and `output_format`
values: `strings.TrimSpace` then `strings.ToLower` (config.go lines 372-373, 400-401). -/
def normalizeOutputType (s : String) : String := strToLower (strTrim s)

-- Output-type constants of config.go (iota block, lines 19-28).
def FileOutputType : Nat := 0
def S3OutputType : Nat := 1
def TCPOutputType : Nat := 2
def UDPOutputType : Nat := 3
def SyslogOutputType : Nat := 4
def HttpOutputType : Nat := 5
def SplunkOutputType : Nat := 6
def KafkaOutputType : Nat := 7

-- Output-format constants of config.go (lines 30-33).
def LEEFOutputFormat : Nat := 0
def JSONOutputFormat : Nat := 1

/-- One piece of the body of a `range .Events` template action: literal text or
`\x7b\x7b.EventText\x7d\x7d`. -/
inductive ETmpl where
  | lit (s : String)
  | eventText
deriving DecidableEq, Repr

/-- One piece of an HTTP post template (`text/template` over `UploadData`):
literal text, `\x7b\x7b.FileName\x7d\x7d`, or `\x7b\x7brange .Events\x7d\x7d...\x7b\x7bend\x7d\x7d`. -/
inductive PTmpl where
  | lit (s : String)
  | fileName
  | range (body : List ETmpl)
deriving DecidableEq, Repr

/-- One piece of a per-record template (`text/template` over a plain string):
literal text or `\x7b\x7b.\x7d\x7d`. -/
inductive RTmpl where
  | lit (s : String)
  | dot
deriving DecidableEq, Repr

/-- A stored `*template.Template`: either one of the templates whose text is fixed in
the source (kept in parsed form) or an operator-supplied template string, whose
Go-template semantics the claims never need. -/
inductive PostTmpl where
  | custom (src : String)
  | pieces (t : List PTmpl)
deriving DecidableEq, Repr

/-- Concatenation of a list of strings (the output of executing a template is the
concatenation of the outputs of its actions, in order). -/
def strConcat : List String → String
  | [] => ""
  | s :: rest => s ++ strConcat rest

/-- Execute a per-record template on one record string. -/
def evalRTmpl (t : List RTmpl) (record : String) : String :=
  strConcat (t.map fun p => match p with
    | .lit s => s
    | .dot => record)

/-- Execute the body of a `range .Events` action on one event's `EventText`. -/
def evalETmpl (t : List ETmpl) (eventTextVal : String) : String :=
  strConcat (t.map fun p => match p with
    | .lit s => s
    | .eventText => eventTextVal)

/-- Execute a post template given `.FileName` and the `.EventText` values produced by
the `.Events` channel, in order. -/
def evalPTmpl (t : List PTmpl) (fileNameVal : String) (events : List String) : String :=
  strConcat (t.map fun p => match p with
    | .lit s => s
    | .fileName => fileNameVal
    | .range body => strConcat (events.map (evalETmpl body)))

/-- Default HTTP post template parsed in `ParseConfig` (config.go lines 469-470):
`\x7b"filename": "\x7b\x7b.FileName\x7d\x7d", "service": "carbonblack", "alerts":[\x7b\x7brange .Events\x7d\x7d\x7b\x7b.EventText\x7d\x7d\x7b\x7bend\x7d\x7d]\x7d`. -/
def defaultHttpPostTemplateJSON : List PTmpl :=
  [ .lit "\x7b\"filename\": \"", .fileName,
    .lit "\", \"service\": \"carbonblack\", \"alerts\":[",
    .range [.eventText], .lit "]\x7d" ]

/-- Default post template for LEEF output (config.go lines 472 and 516):
`\x7b\x7brange .Events\x7d\x7d\x7b\x7b.EventText\x7d\x7d\x7b\x7bend\x7d\x7d`. -/
def defaultRangeEventTemplate : List PTmpl := [ .range [.eventText] ]

/-- Default Splunk post template for JSON output (config.go lines 513-514):
`\x7b\x7brange .Events\x7d\x7d\x7b"sourcetype":"bit9:carbonblack:json","event":\x7b\x7b.EventText\x7d\x7d\x7d\x7b\x7bend\x7d\x7d`. -/
def defaultSplunkPostTemplateJSON : List PTmpl :=
  [ .range [.lit "\x7b\"sourcetype\":\"bit9:carbonblack:json\",\"event\":", .eventText, .lit "\x7d"] ]

/-- `HttpBehavior` first-event template (http_output.go line 61): `\x7b\x7b.\x7d\x7d`. -/
def httpFirstEventTemplate : List RTmpl := [.dot]

/-- `HttpBehavior` subsequent-event template (http_output.go line 62):
the Go string literal `"\n, \x7b\x7b.\x7d\x7d"` — newline, comma, space, record. -/
def httpSubsequentEventTemplate : List RTmpl := [.lit "\n, ", .dot]

/-- `SplunkBehavior` first-event template (splunk_output.go line 31): `\x7b\x7b.\x7d\x7d`. -/
def splunkFirstEventTemplate : List RTmpl := [.dot]

/-- `SplunkBehavior` subsequent-event template (splunk_output.go line 32): `\x7b\x7b.\x7d\x7d`
— the record verbatim, with no separator at all. -/
def splunkSubsequentEventTemplate : List RTmpl := [.dot]

/-- Modelled from the spec: `convertFileIntoTemplate` (main.go, which is not under
src/) walks the bundle's records in order and "applies the first-record template to
the first record and the subsequent-record template to every following record"
(spec §4.2), sending each rendered record down the `.Events` channel consumed by the
post template's `range` action. -/
def convertFileIntoTemplate (records : List String) (first subsequent : List RTmpl) : List String :=
  match records with
  | [] => []
  | r :: rs => evalRTmpl first r :: rs.map (evalRTmpl subsequent)

/-- The full rendering pipeline of one upload: post template over the
per-record-template outputs (spec §4.2; http_output.go lines 115-122). -/
def renderBundle (post : List PTmpl) (first subsequent : List RTmpl)
    (fileNameVal : String) (records : List String) : String :=
  evalPTmpl post fileNameVal (convertFileIntoTemplate records first subsequent)

/-- The `Configuration` struct of config.go (lines 35-110), restricted to the fields
`ParseConfig` assigns from the ini file. Field defaults are the Go zero values.
Omitted (with their source treatment): `EventTypes`/`EventMap`/`MonitoredLogs`
(routing-key filtering, filled by `parseEventTypes`/`parseMonitoredLogs`),
`TLSConfig` (built by `configureTLS` from certificate files on disk — file I/O with
no influence on any field modelled here), and `S3ObjectPrefix`, which is renamed
`S3ObjectPrefixValue`. `BundleSendTimeout` is a `time.Duration`: int64 nanoseconds. -/
structure Configuration where
  ServerName : String := ""
  DebugFlag : Bool := false
  DebugStore : String := ""
  OutputType : Nat := 0
  OutputFormat : Nat := 0
  AMQPUsername : String := ""
  AMQPPassword : String := ""
  AMQPHostname : String := ""
  AMQPPort : Int := 0
  HTTPServerPort : Int := 0
  AMQPTLSEnabled : Bool := false
  AMQPTLSClientKey : String := ""
  AMQPTLSClientCert : String := ""
  AMQPTLSCACert : String := ""
  AMQPQueueName : String := ""
  AMQPAutoDeleteQueue : Bool := false
  OutputParameters : String := ""
  CbServerURL : String := ""
  UseRawSensorExchange : Bool := false
  S3ServerSideEncryption : Option String := none
  S3CredentialProfileName : Option String := none
  S3ACLPolicy : Option String := none
  S3ObjectPrefixValue : Option String := none
  S3VerboseKey : Bool := false
  S3CompressData : Bool := false
  TLSClientKey : Option String := none
  TLSClientCert : Option String := none
  TLSCACert : Option String := none
  TLSVerify : Bool := false
  TLSCName : Option String := none
  TLS12Only : Bool := false
  HttpAuthorizationToken : Option String := none
  HttpPostTemplate : Option PostTmpl := none
  HttpContentType : Option String := none
  UploadEmptyFiles : Bool := false
  CommaSeparateEvents : Bool := false
  BundleSendTimeout : Int := 0
  BundleSizeMax : Int := 0
  FileHandlerCompressData : Bool := false
  PerformFeedPostprocessing : Bool := false
  CbAPIToken : String := ""
  CbAPIVerifySSL : Bool := false
  CbAPIProxyUrl : String := ""
  KafkaBrokers : Option String := none
  KafkaTopicSuffix : Option String := none
  AuditingEnabled : Bool := false
  AuditRedisHost : String := ""
  AuditRedisDatabaseNumber : Int := 0
  AuditPipelineSize : Int := 0
  SplunkToken : Option String := none
  AuditLog : Bool := false
deriving DecidableEq, Repr

/-- Modelled from the spec: `UploadStatus` (declared in main.go, which is not under
src/) is "the outcome record of one delivery attempt (status code, optional error
detail)" plus the file name, matching the composite literals in the two Upload
functions under src/. `result` holds `err.Error()` text; `none` is a nil error. -/
structure UploadStatus where
  fileName : String
  result : Option String := none
  status : Nat := 0
deriving DecidableEq, Repr

/-- The outcome of `this.client.Do(request)`: either a transport-level error (the
wrapped error text the client call returns) or a response, carrying `resp.StatusCode`,
`resp.Status` (the status line, e.g. "404 Not Found") and the body bytes. -/
inductive HttpResult where
  | transportError (msg : String)
  | response (statusCode : Nat) (status : String) (body : String)
deriving DecidableEq, Repr

/-- An `http.Request` as the behaviors build it: method, destination URL, headers. -/
structure HttpRequest where
  method : String
  url : String
  headers : List (String × String)
deriving DecidableEq, Repr

/-- The `HttpBehavior` struct of http_output.go (lines 43-52): destination, header
map, and the three templates. The `*http.Client` handle is transport state outside
the embedding. -/
structure HttpBehaviorState where
  dest : String
  headers : List (String × String)
  httpPostTemplate : Option PostTmpl
  firstEventTemplate : List RTmpl
  subsequentEventTemplate : List RTmpl
deriving DecidableEq, Repr

/-- The `SplunkBehavior` struct of splunk_output.go (lines 13-22). -/
structure SplunkBehaviorState where
  dest : String
  headers : List (String × String)
  httpPostTemplate : Option PostTmpl
  firstEventTemplate : List RTmpl
  subsequentEventTemplate : List RTmpl
deriving DecidableEq, Repr

/-- `HttpBehavior.Initialize` (http_output.go lines 59-81). The headers map gets an
`Authorization` entry holding the configured token verbatim only when
`config.HttpAuthorizationToken` is non-nil, then always a `Content-Type` entry from
`*config.HttpContentType`; that dereference panics when the pointer is nil, which the
outer `Option` models (`none`). The Go method always returns a nil error — the inner
`Option String` is the returned error and is always `none`. -/
def HttpBehavior.Init (config : Configuration) (dest : String) :
    Option (HttpBehaviorState × Option String) :=
  match config.HttpContentType with
  | none => none
  | some ct =>
    some ({ dest := dest
          , headers :=
              (match config.HttpAuthorizationToken with
               | some tok => [("Authorization", tok)]
               | none => []) ++ [("Content-Type", ct)]
          , httpPostTemplate := config.HttpPostTemplate
          , firstEventTemplate := httpFirstEventTemplate
          , subsequentEventTemplate := httpSubsequentEventTemplate }, none)

/-- `SplunkBehavior.Initialize` (splunk_output.go lines 29-50). Identical to the HTTP
variant except that the `Authorization` value is `fmt.Sprintf("Splunk %s", *config.SplunkToken)`
and it is present only when `config.SplunkToken` is non-nil. -/
def SplunkBehavior.Init (config : Configuration) (dest : String) :
    Option (SplunkBehaviorState × Option String) :=
  match config.HttpContentType with
  | none => none
  | some ct =>
    some ({ dest := dest
          , headers :=
              (match config.SplunkToken with
               | some tok => [("Authorization", "Splunk " ++ tok)]
               | none => []) ++ [("Content-Type", ct)]
          , httpPostTemplate := config.HttpPostTemplate
          , firstEventTemplate := splunkFirstEventTemplate
          , subsequentEventTemplate := splunkSubsequentEventTemplate }, none)

/-- The request `HttpBehavior.Upload` sends (http_output.go lines 113, 124-127):
`http.NewRequest("POST", this.dest, reader)` followed by `request.Header.Set` for
every entry of `this.headers`. The body is the streamed render, modelled by
`renderBundle`. -/
def HttpBehavior.uploadRequest (st : HttpBehaviorState) : HttpRequest :=
  { method := "POST", url := st.dest, headers := st.headers }

/-- The request `SplunkBehavior.Upload` sends (splunk_output.go lines 82, 92-95). -/
def SplunkBehavior.uploadRequest (st : SplunkBehaviorState) : HttpRequest :=
  { method := "POST", url := st.dest, headers := st.headers }

/-- `HttpBehavior.Upload`'s status handling (http_output.go lines 130-144), as a
function of the `client.Do` outcome. Transport error: `UploadStatus{fileName, result: err}`
(the `status` field is absent in the literal, hence the Go zero value 0). Non-200:
`errorData := resp.Status + "\n" + body`, and the result error is
`fmt.Errorf("HTTP request failed: Error code %s", errorData)` with `status: resp.StatusCode`.
Otherwise status 200 with the nil error from the successful `Do`. -/
def HttpBehavior.Upload (fileName : String) (r : HttpResult) : UploadStatus :=
  match r with
  | .transportError msg => { fileName := fileName, result := some msg }
  | .response code statusLine body =>
    if code ≠ 200 then
      { fileName := fileName
      , result := some ("HTTP request failed: Error code " ++ (statusLine ++ "\n" ++ body))
      , status := code }
    else
      { fileName := fileName, result := none, status := 200 }

/-- `SplunkBehavior.Upload`'s status handling (splunk_output.go lines 98-112) —
identical to the HTTP variant except the transport-error literal writes `status: 0`
explicitly. -/
def SplunkBehavior.Upload (fileName : String) (r : HttpResult) : UploadStatus :=
  match r with
  | .transportError msg => { fileName := fileName, result := some msg, status := 0 }
  | .response code statusLine body =>
    if code ≠ 200 then
      { fileName := fileName
      , result := some ("HTTP request failed: Error code " ++ (statusLine ++ "\n" ++ body))
      , status := code }
    else
      { fileName := fileName, result := none, status := 200 }

/-- A boolean setting read with `input.Get` + `strconv.ParseBool`, assigned only when
parsing succeeds, so an absent or unparsable value keeps the prior value `dflt`
(the pattern at config.go lines 312-318, 327-335, 380-395, 437-443, 536-543, 582-596,
615-625, 694-700). -/
def boolSetting (input : IniFile) (sec key : String) (dflt : Bool) : Bool :=
  match iniGet input sec key with
  | some v => (parseBool v).getD dflt
  | none => dflt

/-- An integer setting read with `input.Get` + `strconv.Atoi`, assigned only when
parsing succeeds (the pattern at config.go lines 284-290, 304-310, 555-569). -/
def intSetting (input : IniFile) (sec key : String) (dflt : Int) : Int :=
  match iniGet input sec key with
  | some v => (atoi v).getD dflt
  | none => dflt

/-- The result of `parseCbConf()` (config.go lines 135-147): it reads
`/etc/cb/cb.conf`, a file outside the ini input, so the embedding takes its result as
a parameter — the `(username, password, err)` triple, with `err.Error()` text when
non-nil. Go's multiple assignment stores the returned username/password even when
`err != nil`. -/
def CbConfResult : Type := String × String × Option String

/-- The AMQP username before the cb.conf fallback: default "cb", overridden by
`rabbit_mq_username` (config.go lines 242, 292-295). -/
def amqpUsername0 (input : IniFile) : String :=
  (iniGet input "bridge" "rabbit_mq_username").getD "cb"

/-- The AMQP password before the cb.conf fallback: `rabbit_mq_password` or the Go
zero value "" when the key is missing (config.go lines 297-302). -/
def amqpPassword0 (input : IniFile) : String :=
  (iniGet input "bridge" "rabbit_mq_password").getD ""

/-- The final AMQP credentials (config.go lines 320-325): when either part is empty,
both are overwritten with `parseCbConf()`'s returned values. -/
def amqpCreds (input : IniFile) (cb : CbConfResult) : String × String :=
  if amqpUsername0 input = "" ∨ amqpPassword0 input = "" then (cb.1, cb.2.1)
  else (amqpUsername0 input, amqpPassword0 input)

/-- `config.OutputFormat` (config.go lines 239, 370-377): JSON unless `output_format`
trims+lowers to "leef". -/
def outputFormatFor (input : IniFile) : Nat :=
  match iniGet input "bridge" "output_format" with
  | some v => if (normalizeOutputType v) = "leef" then LEEFOutputFormat else JSONOutputFormat
  | none => JSONOutputFormat

/-- The `parameterKey` assigned by the `output_type` switch (config.go lines 397-530).
The kafka case and the default case leave it at the zero value "". -/
def parameterKeyFor (ot : String) : String :=
  if ot = "file" then "outfile"
  else if ot = "tcp" then "tcpout"
  else if ot = "udp" then "udpout"
  else if ot = "s3" then "s3out"
  else if ot = "http" then "httpout"
  else if ot = "syslog" then "syslogout"
  else if ot = "splunk" then "splunkout"
  else ""

/-- The switch cases of config.go lines 403-527; anything else hits `default` and
adds the "Unknown output type" error. -/
def knownOutputType (ot : String) : Bool :=
  ot = "file" ∨ ot = "tcp" ∨ ot = "udp" ∨ ot = "s3" ∨ ot = "http" ∨ ot = "syslog" ∨
    ot = "kafka" ∨ ot = "splunk"

/-- `config.OutputType` after the switch (config.go lines 397-530); the default case
leaves the pre-switch default `FileOutputType`. -/
def outputTypeFor (ot : String) : Nat :=
  if ot = "file" then FileOutputType
  else if ot = "tcp" then TCPOutputType
  else if ot = "udp" then UDPOutputType
  else if ot = "s3" then S3OutputType
  else if ot = "http" then HttpOutputType
  else if ot = "syslog" then SyslogOutputType
  else if ot = "kafka" then KafkaOutputType
  else if ot = "splunk" then SplunkOutputType
  else FileOutputType

/-- `config.HttpPostTemplate` (config.go lines 463-474 for http, 507-518 for splunk):
an operator-supplied `http_post_template` is parsed as given; otherwise the default
depends on the output format. For every other output type the field stays nil. -/
def httpPostTemplateFor (input : IniFile) (ot : String) (outputFormat : Nat) : Option PostTmpl :=
  if ot = "http" then
    match iniGet input "http" "http_post_template" with
    | some s => some (.custom s)
    | none =>
      if outputFormat = JSONOutputFormat then some (.pieces defaultHttpPostTemplateJSON)
      else some (.pieces defaultRangeEventTemplate)
  else if ot = "splunk" then
    match iniGet input "splunk" "http_post_template" with
    | some s => some (.custom s)
    | none =>
      if outputFormat = JSONOutputFormat then some (.pieces defaultSplunkPostTemplateJSON)
      else some (.pieces defaultRangeEventTemplate)
  else none

/-- `config.HttpContentType` (config.go lines 476-482 for http, 520-526 for splunk):
both the http and the splunk case read `content_type` from the `[http]` section and
default it to "application/json". For every other output type the field stays nil. -/
def httpContentTypeFor (input : IniFile) (ot : String) : Option String :=
  if ot = "http" ∨ ot = "splunk" then
    match iniGet input "http" "content_type" with
    | some ct => some ct
    | none => some "application/json"
  else none

/-- `config.UploadEmptyFiles` (config.go lines 649-666): default true, except false
for splunk; a present `upload_empty_files` under the output-type section can only
force it to false (`if boolval == false`), and an unparsable value keeps the default
(adding an error elsewhere). -/
def uploadEmptyFilesFor (input : IniFile) (ot : String) : Bool :=
  match iniGet input ot "upload_empty_files" with
  | some v =>
    match parseBool v with
    | some b => if b = false then false else (if ot = "splunk" then false else true)
    | none => if ot = "splunk" then false else true
  | none => if ot = "splunk" then false else true

/-- `config.BundleSizeMax` (config.go lines 674-682): default 10 MiB, overridden by a
`bundle_size_max` under the output-type section that `ParseInt` accepts. -/
def bundleSizeMaxFor (input : IniFile) (ot : String) : Int :=
  match iniGet input ot "bundle_size_max" with
  | some v => (parseInt64 v).getD (10 * 1024 * 1024)
  | none => 10 * 1024 * 1024

/-- `config.BundleSendTimeout` (config.go lines 684-692): default 5 minutes; a
`bundle_send_timeout` under the output-type section that `ParseInt` accepts yields
`time.Duration(n) * time.Second` — an int64 product, wrapping on overflow. An
unparsable value keeps the default with no error. -/
def bundleSendTimeoutFor (input : IniFile) (ot : String) : Int :=
  match iniGet input ot "bundle_send_timeout" with
  | some v =>
    match parseInt64 v with
    | some n => int64Mul n timeSecond
    | none => 5 * timeMinute
  | none => 5 * timeMinute

/-- `config.TLS12Only` (config.go lines 627-638): default true; `insecure_tls` that
parses to true relaxes it to false; an unparsable value keeps the default. -/
def tls12OnlyFor (input : IniFile) (ot : String) : Bool :=
  match iniGet input ot "insecure_tls" with
  | some v =>
    match parseBool v with
    | some b => !b
    | none => true
  | none => true

/-- `config.AuditingEnabled` (config.go lines 536-543). -/
def auditingEnabledFor (input : IniFile) : Bool :=
  boolSetting input "audit" "enabled" false

/-- The `log.Panic("NOT OK")` at config.go line 552: auditing enabled but
`[audit] redis_host` missing aborts `ParseConfig` by panicking. -/
def auditAborts (input : IniFile) : Bool :=
  auditingEnabledFor input && (iniGet input "audit" "redis_host").isNone

/-- The errors added before the output-type switch, in source order:
the missing `rabbit_mq_password` error (config.go line 299) and a failing
`parseCbConf` error (line 323). -/
def preErrs (input : IniFile) (cb : CbConfResult) : List String :=
  (match iniGet input "bridge" "rabbit_mq_password" with
   | none => ["Missing required rabbit_mq_password section"]
   | some _ => [])
  ++ (if amqpUsername0 input = "" ∨ amqpPassword0 input = "" then
        match cb.2.2 with
        | some e => [e]
        | none => []
      else [])

/-- The full `ConfigurationError.Errors` list accumulated on the non-early-return
path, in source order: pre-switch errors, the switch `default` error (line 529), the
missing output-parameter error (lines 572-580), and the four unparsable-boolean
errors (lines 594, 623, 636, 664, 698). The Go function returns this list as a
`ConfigurationError` exactly when it is non-empty (lines 717-721). -/
def errsFor (input : IniFile) (cb : CbConfResult) (ot : String) : List String :=
  preErrs input cb
  ++ (if knownOutputType ot then [] else ["Unknown output type: " ++ ot])
  ++ (if (parameterKeyFor ot).length > 0 ∧ iniGet input "bridge" (parameterKeyFor ot) = none then
        ["Missing value for key " ++ parameterKeyFor ot ++ ", required by output type " ++ ot]
      else [])
  ++ (match iniGet input "bridge" "use_raw_sensor_exchange" with
      | some v =>
        if (parseBool v).isNone then
          ["Unknown value for \x27use_raw_sensor_exchange\x27: valid values are true, false, 1, 0"]
        else []
      | none => [])
  ++ (match iniGet input ot "tls_verify" with
      | some v =>
        if (parseBool v).isNone then
          ["Unknown value for \x27tls_verify\x27: valid values are true, false, 1, 0. Default is \x27true\x27"]
        else []
      | none => [])
  ++ (match iniGet input ot "insecure_tls" with
      | some v => if (parseBool v).isNone then ["Unknown value for \x27insecure_tls\x27: "] else []
      | none => [])
  ++ (match iniGet input ot "upload_empty_files" with
      | some v =>
        if (parseBool v).isNone then
          ["Unknown value for \x27upload_empty_files\x27: valid values are true, false, 1, 0. Default is \x27true\x27"]
        else []
      | none => [])
  ++ (match iniGet input "bridge" "api_verify_ssl" with
      | some v =>
        if (parseBool v).isNone then
          ["Unknown value for \x27api_verify_ssl\x27: valid values are true, false, 1, 0. Default is \x27false\x27"]
        else []
      | none => [])

/-- The configuration returned by the early `return config, errs` when `output_type`
is absent (config.go lines 531-534): only the assignments up to that line have run;
every field set later keeps its Go zero value (the structure default). The source
sets `DebugStore` to "/tmp" at line 245 and unconditionally overwrites it at lines
275-280, so only the final value appears here. -/
def earlyReturnConfig (input : IniFile) (cb : CbConfResult) : Configuration :=
  { ServerName := (iniGet input "bridge" "server_name").getD "CB"
  , DebugFlag := iniGet input "bridge" "debug" == some "1"
  , DebugStore := (iniGet input "bridge" "debug_store").getD "/var/log/cb/integrations/cb-event-forwarder"
  , OutputType := FileOutputType
  , OutputFormat := outputFormatFor input
  , AMQPUsername := (amqpCreds input cb).1
  , AMQPPassword := (amqpCreds input cb).2
  , AMQPHostname := (iniGet input "bridge" "cb_server_hostname").getD "localhost"
  , AMQPPort := intSetting input "bridge" "rabbit_mq_port" 5004
  , HTTPServerPort := intSetting input "bridge" "http_server_port" 33706
  , AMQPTLSEnabled := boolSetting input "bridge" "rabbit_mq_use_tls" false
  , AMQPTLSClientKey := (iniGet input "bridge" "rabbit_mq_key").getD ""
  , AMQPTLSClientCert := (iniGet input "bridge" "rabbit_mq_cert").getD ""
  , AMQPTLSCACert := (iniGet input "bridge" "rabbit_mq_ca_cert").getD ""
  , AMQPQueueName := (iniGet input "bridge" "rabbit_mq_queue_name").getD ""
  , AMQPAutoDeleteQueue := boolSetting input "bridge" "rabbit_mq_auto_delete_queue" true
  , CbServerURL :=
      match iniGet input "bridge" "cb_server_url" with
      | some v => if v.endsWith "/" then v else v ++ "/"
      | none => ""
  , FileHandlerCompressData := boolSetting input "bridge" "compress_data" false
  , AuditLog := boolSetting input "bridge" "audit_log" false }

/-- The configuration built on the main path of `ParseConfig`, given the normalized
output type `ot` (config.go lines 228-715, in SSA form: every field holds the last
value the source assigns to it). -/
def mainConfig (input : IniFile) (cb : CbConfResult) (ot : String) : Configuration :=
  { ServerName := (iniGet input "bridge" "server_name").getD "CB"
  , DebugFlag := iniGet input "bridge" "debug" == some "1"
  , DebugStore := (iniGet input "bridge" "debug_store").getD "/var/log/cb/integrations/cb-event-forwarder"
  , OutputType := outputTypeFor ot
  , OutputFormat := outputFormatFor input
  , AMQPUsername := (amqpCreds input cb).1
  , AMQPPassword := (amqpCreds input cb).2
  , AMQPHostname := (iniGet input "bridge" "cb_server_hostname").getD "localhost"
  , AMQPPort := intSetting input "bridge" "rabbit_mq_port" 5004
  , HTTPServerPort := intSetting input "bridge" "http_server_port" 33706
  , AMQPTLSEnabled := boolSetting input "bridge" "rabbit_mq_use_tls" false
  , AMQPTLSClientKey := (iniGet input "bridge" "rabbit_mq_key").getD ""
  , AMQPTLSClientCert := (iniGet input "bridge" "rabbit_mq_cert").getD ""
  , AMQPTLSCACert := (iniGet input "bridge" "rabbit_mq_ca_cert").getD ""
  , AMQPQueueName := (iniGet input "bridge" "rabbit_mq_queue_name").getD ""
  , AMQPAutoDeleteQueue := boolSetting input "bridge" "rabbit_mq_auto_delete_queue" true
  , OutputParameters :=
      if (parameterKeyFor ot).length > 0 then (iniGet input "bridge" (parameterKeyFor ot)).getD ""
      else ""
  , CbServerURL :=
      match iniGet input "bridge" "cb_server_url" with
      | some v => if v.endsWith "/" then v else v ++ "/"
      | none => ""
  , UseRawSensorExchange := boolSetting input "bridge" "use_raw_sensor_exchange" false
  , S3ServerSideEncryption := if ot = "s3" then iniGet input "s3" "server_side_encryption" else none
  , S3CredentialProfileName := if ot = "s3" then iniGet input "s3" "credential_profile" else none
  , S3ACLPolicy := if ot = "s3" then iniGet input "s3" "acl_policy" else none
  , S3ObjectPrefixValue := if ot = "s3" then iniGet input "s3" "object_prefix" else none
  , S3VerboseKey := if ot = "s3" then boolSetting input "s3" "verbose_key" false else false
  , S3CompressData :=
      if ot = "s3" then
        match iniGet input "s3" "compress_data" with
        | some v => (parseBool v).getD false
        | none => true
      else false
  , TLSClientKey := iniGet input ot "client_key"
  , TLSClientCert := iniGet input ot "client_cert"
  , TLSCACert := iniGet input ot "ca_cert"
  , TLSVerify := boolSetting input ot "tls_verify" true
  , TLSCName := iniGet input ot "server_cname"
  , TLS12Only := tls12OnlyFor input ot
  , HttpAuthorizationToken := if ot = "http" then iniGet input "http" "authorization_token" else none
  , HttpPostTemplate := httpPostTemplateFor input ot (outputFormatFor input)
  , HttpContentType := httpContentTypeFor input ot
  , UploadEmptyFiles := uploadEmptyFilesFor input ot
  , CommaSeparateEvents := outputFormatFor input == JSONOutputFormat
  , BundleSendTimeout := bundleSendTimeoutFor input ot
  , BundleSizeMax := bundleSizeMaxFor input ot
  , FileHandlerCompressData := boolSetting input "bridge" "compress_data" false
  , PerformFeedPostprocessing := (iniGet input "bridge" "api_token").isSome
  , CbAPIToken := (iniGet input "bridge" "api_token").getD ""
  , CbAPIVerifySSL := boolSetting input "bridge" "api_verify_ssl" false
  , CbAPIProxyUrl := (iniGet input "bridge" "api_proxy_url").getD ""
  , KafkaBrokers := if ot = "kafka" then iniGet input "kafka" "brokers" else none
  , KafkaTopicSuffix := if ot = "kafka" then iniGet input "kafka" "topic_suffix" else none
  , AuditingEnabled := auditingEnabledFor input
  , AuditRedisHost := if auditingEnabledFor input then (iniGet input "audit" "redis_host").getD "" else ""
  , AuditRedisDatabaseNumber :=
      if auditingEnabledFor input then intSetting input "audit" "redis_database_number" 0 else 0
  , AuditPipelineSize :=
      if auditingEnabledFor input then intSetting input "audit" "pipeline_size" 0 else 0
  , SplunkToken := if ot = "splunk" then iniGet input "splunk" "hec_token" else none
  , AuditLog := boolSetting input "bridge" "audit_log" false }

/-- `ParseConfig` (config.go lines 228-722) as a function of the parsed ini file and
the `parseCbConf()` result. The returned list is `ConfigurationError.Errors`; Go
returns it as an error exactly when it is non-empty. `none` models the
`log.Panic` abort at line 552 (hoisted to the result; the function is otherwise
pure). When `output_type` is absent the function returns early at line 533 with the
"No output type specified" error and only the fields assigned so far; otherwise
`outType` is trimmed and lowered (lines 400-401) and drives the rest. -/
def ParseConfig (input : IniFile) (cb : CbConfResult) : Option (Configuration × List String) :=
  match iniGet input "bridge" "output_type" with
  | none => some (earlyReturnConfig input cb, preErrs input cb ++ ["No output type specified"])
  | some outTypeRaw =>
    if auditAborts input then none
    else
      some (mainConfig input cb ((normalizeOutputType outTypeRaw)),
            errsFor input cb ((normalizeOutputType outTypeRaw)))

/-- A `parseCbConf()` result for runs whose ini supplies both AMQP credentials, so
the fallback is never consulted. -/
def cb0 : CbConfResult := ("", "", none)

/-- A splunk-output ini that sets `upload_empty_files=true` explicitly and puts a
`content_type` under `[splunk]` (which `ParseConfig` never reads). -/
def sampleSplunkIni : IniFile :=
  [ (("bridge", "output_type"), "splunk")
  , (("bridge", "rabbit_mq_password"), "pw")
  , (("bridge", "splunkout"), "https://collector.example:8088/services/collector")
  , (("splunk", "hec_token"), "tok123")
  , (("splunk", "upload_empty_files"), "true")
  , (("splunk", "content_type"), "text/weird") ]

/-- An http-output ini that omits the required `httpout` destination key. -/
def sampleHttpNoDestIni : IniFile :=
  [ (("bridge", "output_type"), "http")
  , (("bridge", "rabbit_mq_password"), "pw") ]

/-- An http-output ini with the destination present. -/
def sampleHttpIni : IniFile :=
  [ (("bridge", "output_type"), "http")
  , (("bridge", "rabbit_mq_password"), "pw")
  , (("bridge", "httpout"), "https://example.com/in") ]

/-- A file-output ini that leaves both bundle settings unset. -/
def sampleFileIni : IniFile :=
  [ (("bridge", "output_type"), "file")
  , (("bridge", "outfile"), "/var/cb/data/event_bridge_output.json")
  , (("bridge", "rabbit_mq_password"), "pw") ]

/-- A file-output ini whose `bundle_send_timeout` parses but whose value in
nanoseconds overflows int64: 10^10 seconds. -/
def overflowTimeoutIni : IniFile :=
  [ (("bridge", "output_type"), "file")
  , (("bridge", "outfile"), "/var/cb/data/event_bridge_output.json")
  , (("bridge", "rabbit_mq_password"), "pw")
  , (("file", "bundle_send_timeout"), "10000000000") ]

/-- A file-output ini whose `bundle_send_timeout` fails integer parsing. -/
def badTimeoutIni : IniFile :=
  [ (("bridge", "output_type"), "file")
  , (("bridge", "outfile"), "/var/cb/data/event_bridge_output.json")
  , (("bridge", "rabbit_mq_password"), "pw")
  , (("file", "bundle_send_timeout"), "5m") ]

/-- A configuration with both kinds of credential set, as `ParseConfig` would build
for an http run (content type always present for http/splunk output). -/
def sampleAuthConfig : Configuration :=
  { HttpContentType := some "application/json"
  , HttpAuthorizationToken := some "secret-token"
  , SplunkToken := some "hec-token" }

/-- A configuration with no credential configured. -/
def sampleNoAuthConfig : Configuration :=
  { HttpContentType := some "application/json" }

/-- Unpacking a successful `ParseConfig` run that has an `output_type`: the
configuration is `mainConfig` and the error list is `errsFor`, both at the
normalized output type. -/
theorem parseConfig_shape (input : IniFile) (cb : CbConfResult) (raw : String)
    (cfg : Configuration) (errs : List String)
    (hout : iniGet input "bridge" "output_type" = some raw)
    (hpc : ParseConfig input cb = some (cfg, errs)) :
    cfg = mainConfig input cb ((normalizeOutputType raw)) ∧ errs = errsFor input cb ((normalizeOutputType raw)) := by
  unfold ParseConfig at hpc
  rw [hout] at hpc
  by_cases ha : auditAborts input
  · simp [ha] at hpc
  · simp [ha] at hpc
    exact ⟨hpc.1.symm, hpc.2.symm⟩

/-- The detail string of a non-200 upload failure is never empty. -/
theorem prefixed_detail_ne_empty (x : String) : "HTTP request failed: Error code " ++ x ≠ "" := by
  intro h
  have h2 := congrArg String.length h
  rw [String.length_append] at h2
  have h3 : (0 : Nat) < "HTTP request failed: Error code ".length := by decide
  simp at h2
  omega

/-- For splunk output, `UploadEmptyFiles` is false whatever `upload_empty_files`
says (config.go lines 650-652 plus the false-only override at 656-666). -/
theorem uploadEmptyFilesFor_splunk (input : IniFile) :
    uploadEmptyFilesFor input "splunk" = false := by
  cases hv : iniGet input "splunk" "upload_empty_files" with
  | none => simp [uploadEmptyFilesFor, hv]
  | some v =>
    cases hb : parseBool v with
    | none => simp [uploadEmptyFilesFor, hv, hb]
    | some b => cases b <;> simp [uploadEmptyFilesFor, hv, hb]

/-- For any non-splunk output with no `upload_empty_files` key, the default is true. -/
theorem uploadEmptyFilesFor_absent (input : IniFile) (ot : String)
    (hne : ot ≠ "splunk") (hv : iniGet input ot "upload_empty_files" = none) :
    uploadEmptyFilesFor input ot = true := by
  simp [uploadEmptyFilesFor, hv, hne]

/-- Erasing one key leaves every lookup under a different key name unchanged. -/
theorem iniGet_eraseKey_ne (f : IniFile) (sec key sec2 key2 : String) (h : key2 ≠ key) :
    iniGet (eraseKey f sec key) sec2 key2 = iniGet f sec2 key2 := by
  induction f with
  | nil => rfl
  | cons e t ih =>
    by_cases he : e.1.1 = sec ∧ e.1.2 = key
    · have hne : ¬(e.1.1 = sec2 ∧ e.1.2 = key2) := by
        rintro ⟨-, h2⟩
        exact h (h2 ▸ he.2 ▸ rfl)
      have hne2 : ¬(sec = sec2 ∧ key = key2) := fun hc => h hc.2.symm
      simp [eraseKey, he, iniGet, hne, ih, hne2]
    · simp only [eraseKey, he, if_false, iniGet]
      split <;> simp [ih]

/-- No output type's destination parameter key is named `bundle_send_timeout`. -/
theorem parameterKeyFor_ne_bundleKey (ot : String) :
    parameterKeyFor ot ≠ "bundle_send_timeout" := by
  unfold parameterKeyFor
  repeat' split
  all_goals decide

/-- The error list of a `ParseConfig` run does not consult `bundle_send_timeout`:
erasing that key from the output-type section leaves the errors unchanged. -/
theorem errsFor_erase_bundleSendTimeout (input : IniFile) (cb : CbConfResult) (ot : String) :
    errsFor (eraseKey input ot "bundle_send_timeout") cb ot = errsFor input cb ot := by
  have hg : ∀ sec2 key2, key2 ≠ "bundle_send_timeout" →
      iniGet (eraseKey input ot "bundle_send_timeout") sec2 key2 = iniGet input sec2 key2 :=
    fun sec2 key2 h => iniGet_eraseKey_ne input ot "bundle_send_timeout" sec2 key2 h
  unfold errsFor preErrs amqpUsername0 amqpPassword0
  rw [hg "bridge" "rabbit_mq_password" (by decide),
      hg "bridge" "rabbit_mq_username" (by decide),
      hg "bridge" (parameterKeyFor ot) (parameterKeyFor_ne_bundleKey ot),
      hg "bridge" "use_raw_sensor_exchange" (by decide),
      hg ot "tls_verify" (by decide),
      hg ot "insecure_tls" (by decide),
      hg ot "upload_empty_files" (by decide),
      hg "bridge" "api_verify_ssl" (by decide)]

/-- `wrapInt64` is the identity on values already in int64 range. -/
theorem wrapInt64_eq_self (x : Int) (h1 : -(2 ^ 63) ≤ x) (h2 : x < 2 ^ 63) :
    wrapInt64 x = x := by
  unfold wrapInt64
  have hp : (2 : Int) ^ 64 = 2 ^ 63 + 2 ^ 63 := by norm_num
  have h3 : (0 : Int) ≤ x + 2 ^ 63 := by omega
  have h4 : x + 2 ^ 63 < 2 ^ 64 := by omega
  rw [Int.emod_eq_of_lt h3 h4]
  omega

/-- C1: for both the HTTP and the Splunk upload behaviors, the returned
`UploadStatus` has status 200 exactly when the POST received a 200 response; a
transport-level failure of `client.Do` yields status 0 with the underlying error
text as the result; any non-200 response yields that status code with a non-empty
error detail. -/
theorem upload_status_contract (fn : String) (r : HttpResult) :
    (( HttpBehavior.Upload fn r).status = 200 ↔ ∃ sl body, r = .response 200 sl body)
    ∧ ((SplunkBehavior.Upload fn r).status = 200 ↔ ∃ sl body, r = .response 200 sl body)
    ∧ (∀ msg, r = .transportError msg →
        HttpBehavior.Upload fn r = { fileName := fn, result := some msg, status := 0 }
        ∧ SplunkBehavior.Upload fn r = { fileName := fn, result := some msg, status := 0 })
    ∧ (∀ code sl body, r = .response code sl body → code ≠ 200 →
        (( HttpBehavior.Upload fn r).status = code
          ∧ ∃ d, ( HttpBehavior.Upload fn r).result = some d ∧ d ≠ "")
        ∧ ((SplunkBehavior.Upload fn r).status = code
          ∧ ∃ d, (SplunkBehavior.Upload fn r).result = some d ∧ d ≠ "")) := by
  cases r with
  | transportError msg =>
    simp [HttpBehavior.Upload, SplunkBehavior.Upload]
  | response code sl body =>
    by_cases h : code = 200
    · subst h
      simp [HttpBehavior.Upload, SplunkBehavior.Upload]
    · simp only [HttpBehavior.Upload, SplunkBehavior.Upload, ne_eq, h,
        not_false_eq_true, if_true, HttpResult.response.injEq, reduceCtorEq]
      refine ⟨?_, ?_, ?_, ?_⟩
      · simp [h]
      · simp [h]
      · intro msg hmsg
        cases hmsg
      · intro code2 sl2 body2 heq hne
        obtain ⟨hc, hs, hb⟩ := heq
        subst hc; subst hs; subst hb
        exact ⟨⟨rfl, _, rfl, prefixed_detail_ne_empty _⟩, ⟨rfl, _, rfl, prefixed_detail_ne_empty _⟩⟩

/-- C1 witness: the contract evaluated at a 404 response and at a transport error. -/
theorem upload_status_contract_witness :
    ( HttpBehavior.Upload "events.json" (.response 404 "404 Not Found" "missing")).status = 404
    ∧ SplunkBehavior.Upload "events.json" (.transportError "connection refused")
        = { fileName := "events.json", result := some "connection refused", status := 0 } := by
  constructor
  · exact (((upload_status_contract "events.json"
      (.response 404 "404 Not Found" "missing")).2.2.2 404 "404 Not Found" "missing"
        rfl (by decide)).1).1
  · exact ((upload_status_contract "events.json"
      (.transportError "connection refused")).2.2.1 "connection refused" rfl).2

/-- C2 counterexample: with the default JSON post template and the HTTP behavior's
record templates, three records render with `"\n, "` (newline, comma, space) between
consecutive records — not a bare comma — so the claimed output is not produced. -/
theorem default_json_render_counterexample :
    renderBundle defaultHttpPostTemplateJSON httpFirstEventTemplate httpSubsequentEventTemplate
        "F" ["a", "b", "c"]
      = "\x7b\"filename\": \"F\", \"service\": \"carbonblack\", \"alerts\":[a\n, b\n, c]\x7d"
    ∧ renderBundle defaultHttpPostTemplateJSON httpFirstEventTemplate httpSubsequentEventTemplate
        "F" ["a", "b", "c"]
      ≠ "\x7b\"filename\": \"F\", \"service\": \"carbonblack\", \"alerts\":[a,b,c]\x7d" := by
  decide

/-- C2 (amended): rendering records a, b, c with file name F through the default
JSON post template and the HTTP behavior's record templates yields the default
envelope with `"\n, "` as the only text between consecutive records and no
separator before the first or after the last record. -/
theorem default_json_render (fn a b c : String) :
    renderBundle defaultHttpPostTemplateJSON httpFirstEventTemplate httpSubsequentEventTemplate
        fn [a, b, c]
      = "\x7b\"filename\": \"" ++ fn ++ "\", \"service\": \"carbonblack\", \"alerts\":["
          ++ a ++ "\n, " ++ b ++ "\n, " ++ c ++ "]\x7d" := by
  simp [renderBundle, convertFileIntoTemplate, evalPTmpl, evalETmpl, evalRTmpl, strConcat,
    defaultHttpPostTemplateJSON, httpFirstEventTemplate, httpSubsequentEventTemplate,
    String.append_assoc, String.append_empty]

/-- C3 counterexample: the HTTP behavior's default subsequent-record template emits
`"\n, "` before the record — neither a bare comma (JSON mode) nor a bare newline
(LEEF mode) — and the Splunk behavior's emits no separator at all. -/
theorem default_separator_counterexample :
    evalRTmpl httpSubsequentEventTemplate "b" = "\n, b"
    ∧ evalRTmpl httpSubsequentEventTemplate "b" ≠ ",b"
    ∧ evalRTmpl httpSubsequentEventTemplate "b" ≠ "\nb"
    ∧ evalRTmpl splunkSubsequentEventTemplate "b" = "b"
    ∧ evalRTmpl splunkSubsequentEventTemplate "b" ≠ ",b"
    ∧ evalRTmpl splunkSubsequentEventTemplate "b" ≠ "\nb" := by
  decide

/-- C3 (amended): the default first-record templates do emit the record verbatim;
but the HTTP behavior's default subsequent-record template emits `"\n, "` then the
record for every configuration, and the Splunk behavior's emits the record verbatim
with no separator; the comma-separation flag `ParseConfig` computes is set exactly
when the output format is JSON, but the behaviors' templates do not consult it. -/
theorem default_record_templates (s : String) (input : IniFile) (cb : CbConfResult)
    (raw : String) (cfg : Configuration) (errs : List String)
    (hout : iniGet input "bridge" "output_type" = some raw)
    (hpc : ParseConfig input cb = some (cfg, errs)) :
    evalRTmpl httpFirstEventTemplate s = s
    ∧ evalRTmpl splunkFirstEventTemplate s = s
    ∧ evalRTmpl httpSubsequentEventTemplate s = "\n, " ++ s
    ∧ evalRTmpl splunkSubsequentEventTemplate s = s
    ∧ (cfg.CommaSeparateEvents = true ↔ cfg.OutputFormat = JSONOutputFormat) := by
  obtain ⟨hc, -⟩ := parseConfig_shape input cb raw cfg errs hout hpc
  subst hc
  refine ⟨?_, ?_, ?_, ?_, ?_⟩
  · simp [evalRTmpl, httpFirstEventTemplate, strConcat, String.append_empty]
  · simp [evalRTmpl, splunkFirstEventTemplate, strConcat, String.append_empty]
  · simp [evalRTmpl, httpSubsequentEventTemplate, strConcat, String.append_empty]
  · simp [evalRTmpl, splunkSubsequentEventTemplate, strConcat, String.append_empty]
  · simp [mainConfig, beq_iff_eq]

/-- C3 witness: the amended statement evaluated on a concrete http-output run. -/
theorem default_record_templates_witness :
    ∃ cfg errs, ParseConfig sampleHttpIni cb0 = some (cfg, errs)
      ∧ evalRTmpl httpSubsequentEventTemplate "x" = "\n, " ++ "x"
      ∧ (cfg.CommaSeparateEvents = true ↔ cfg.OutputFormat = JSONOutputFormat) := by
  rcases hpc : ParseConfig sampleHttpIni cb0 with _ | ⟨cfg, errs⟩
  · exact absurd hpc (by decide)
  · have h := default_record_templates "x" sampleHttpIni cb0 "http" cfg errs (by decide) hpc
    exact ⟨cfg, errs, rfl, h.2.2.1, h.2.2.2.2⟩

/-- C4 counterexample: an ini with no `output_type` takes the early return before the
`UploadEmptyFiles` block ever runs, so the parsed configuration has
`UploadEmptyFiles = false` (the Go zero value) although the output type is the file
default, not splunk, and no `upload_empty_files` key is set. -/
theorem upload_empty_default_counterexample :
    ∃ cfg errs, ParseConfig [] cb0 = some (cfg, errs)
      ∧ cfg.UploadEmptyFiles = false
      ∧ cfg.OutputType = FileOutputType
      ∧ FileOutputType ≠ SplunkOutputType := by
  exact ⟨_, _, rfl, rfl, rfl, by decide⟩

/-- C4 (amended): for every configuration whose `output_type` key is present,
`UploadEmptyFiles` defaults to true, and is false for splunk output regardless of
any `upload_empty_files` setting (including an explicit true); when `output_type` is
absent, `ParseConfig` returns early and the field keeps the Go zero value false. -/
theorem upload_empty_default (input : IniFile) (cb : CbConfResult) (raw : String)
    (cfg : Configuration) (errs : List String)
    (hout : iniGet input "bridge" "output_type" = some raw)
    (hpc : ParseConfig input cb = some (cfg, errs)) :
    ((normalizeOutputType raw) = "splunk" → cfg.UploadEmptyFiles = false)
    ∧ ((normalizeOutputType raw) ≠ "splunk" →
        iniGet input (normalizeOutputType raw) "upload_empty_files" = none →
        cfg.UploadEmptyFiles = true) := by
  obtain ⟨hc, -⟩ := parseConfig_shape input cb raw cfg errs hout hpc
  subst hc
  constructor
  · intro hsp
    rw [hsp]
    simp [mainConfig, uploadEmptyFilesFor_splunk]
  · intro hne hv
    simp only [mainConfig]
    exact uploadEmptyFilesFor_absent input _ hne hv

/-- C4 witness: a splunk run with an explicit `upload_empty_files=true` still parses
with `UploadEmptyFiles = false`. -/
theorem upload_empty_default_witness :
    ∃ cfg errs, ParseConfig sampleSplunkIni cb0 = some (cfg, errs)
      ∧ iniGet sampleSplunkIni "splunk" "upload_empty_files" = some "true"
      ∧ cfg.UploadEmptyFiles = false := by
  rcases hpc : ParseConfig sampleSplunkIni cb0 with _ | ⟨cfg, errs⟩
  · exact absurd hpc (by decide)
  · exact ⟨cfg, errs, rfl, by decide,
      (upload_empty_default sampleSplunkIni cb0 "splunk" cfg errs (by decide) hpc).1 (by decide)⟩

/-- C5 counterexample: with `output_type=http` and no `httpout` key, `ParseConfig`
already reports the missing parameter, and `HttpBehavior.Initialize` on the parsed
configuration still succeeds with a nil error — initialize rejects nothing. -/
theorem missing_param_counterexample :
    ∃ cfg errs st, ParseConfig sampleHttpNoDestIni cb0 = some (cfg, errs)
      ∧ "Missing value for key httpout, required by output type http" ∈ errs
      ∧ HttpBehavior.Init cfg "http://example.com/in" = some (st, none) := by
  exact ⟨_, _, _, rfl, by decide, rfl⟩

/-- C5 (amended): when the selected output type's destination parameter key is
missing, configuration loading itself returns a `ConfigurationError` containing the
missing-value message; the behaviors' `Initialize` methods never return an error, so
the rejection point is `ParseConfig`, not initialize. -/
theorem missing_param_rejected_at_parse (input : IniFile) (cb : CbConfResult) (raw : String)
    (cfg : Configuration) (errs : List String)
    (hout : iniGet input "bridge" "output_type" = some raw)
    (hpc : ParseConfig input cb = some (cfg, errs))
    (hpk : (parameterKeyFor (normalizeOutputType raw)).length > 0)
    (hmiss : iniGet input "bridge" (parameterKeyFor (normalizeOutputType raw)) = none) :
    ("Missing value for key " ++ parameterKeyFor (normalizeOutputType raw)
        ++ ", required by output type " ++ (normalizeOutputType raw)) ∈ errs
    ∧ errs ≠ []
    ∧ (∀ cfg2 dest st e, HttpBehavior.Init cfg2 dest = some (st, e) → e = none)
    ∧ (∀ cfg2 dest st e, SplunkBehavior.Init cfg2 dest = some (st, e) → e = none) := by
  obtain ⟨-, he⟩ := parseConfig_shape input cb raw cfg errs hout hpc
  subst he
  have hmem : ("Missing value for key " ++ parameterKeyFor (normalizeOutputType raw)
      ++ ", required by output type " ++ (normalizeOutputType raw))
      ∈ errsFor input cb (normalizeOutputType raw) := by
    simp [errsFor, hpk, hmiss, List.mem_append]
  refine ⟨hmem, List.ne_nil_of_mem hmem, ?_, ?_⟩
  · intro cfg2 dest st e h
    cases hct : cfg2.HttpContentType with
    | none => simp [HttpBehavior.Init, hct] at h
    | some ct =>
      simp only [HttpBehavior.Init, hct, Option.some.injEq, Prod.mk.injEq] at h
      exact h.2.symm
  · intro cfg2 dest st e h
    cases hct : cfg2.HttpContentType with
    | none => simp [SplunkBehavior.Init, hct] at h
    | some ct =>
      simp only [SplunkBehavior.Init, hct, Option.some.injEq, Prod.mk.injEq] at h
      exact h.2.symm

/-- C5 witness: the amended statement evaluated on the concrete http ini that lacks
`httpout`. -/
theorem missing_param_rejected_at_parse_witness :
    ∃ cfg errs, ParseConfig sampleHttpNoDestIni cb0 = some (cfg, errs) ∧ errs ≠ [] := by
  rcases hpc : ParseConfig sampleHttpNoDestIni cb0 with _ | ⟨cfg, errs⟩
  · exact absurd hpc (by decide)
  · exact ⟨cfg, errs, rfl,
      (missing_param_rejected_at_parse sampleHttpNoDestIni cb0 "http" cfg errs (by decide) hpc
        (by decide) (by decide)).2.1⟩

/-- C6 counterexample: the error detail attached to a non-200 `UploadStatus` is the
status line and body wrapped in the `"HTTP request failed: Error code %s"` format —
not the bare `"<status line>\n<response body>"` the claim states. -/
theorem nonsuccess_detail_counterexample :
    ( HttpBehavior.Upload "events.json" (.response 400 "400 Bad Request" "oops")).result
      = some "HTTP request failed: Error code 400 Bad Request\noops"
    ∧ ( HttpBehavior.Upload "events.json" (.response 400 "400 Bad Request" "oops")).result
      ≠ some "400 Bad Request\noops" := by
  decide

/-- C6 (amended): for every non-200 response, both behaviors attach exactly
`"HTTP request failed: Error code "` followed by the status line, a newline and the
response body, and carry the response status code. -/
theorem nonsuccess_detail (fn sl body : String) (code : Nat) (h : code ≠ 200) :
    ( HttpBehavior.Upload fn (.response code sl body)).result
      = some ("HTTP request failed: Error code " ++ (sl ++ "\n" ++ body))
    ∧ (SplunkBehavior.Upload fn (.response code sl body)).result
      = some ("HTTP request failed: Error code " ++ (sl ++ "\n" ++ body))
    ∧ ( HttpBehavior.Upload fn (.response code sl body)).status = code
    ∧ (SplunkBehavior.Upload fn (.response code sl body)).status = code := by
  simp [HttpBehavior.Upload, SplunkBehavior.Upload, h]

/-- C6 witness: the amended statement evaluated at a 400 response. -/
theorem nonsuccess_detail_witness :
    (400 : Nat) ≠ 200
    ∧ ( HttpBehavior.Upload "f.json" (.response 400 "400 Bad Request" "x")).result
      = some ("HTTP request failed: Error code " ++ ("400 Bad Request" ++ "\n" ++ "x")) :=
  ⟨by decide, (nonsuccess_detail "f.json" "400 Bad Request" "x" 400 (by decide)).1⟩

/-- C7: after initialize, every request either behavior sends carries an
`Authorization` header exactly when a credential is configured — the HTTP behavior
sends the configured token verbatim as the header value, the Splunk behavior sends
`"Splunk <token>"`; with no credential configured the header is absent. -/
theorem authorization_header (cfg : Configuration) (dest : String) :
    (∀ st e, HttpBehavior.Init cfg dest = some (st, e) →
      (∀ tok, cfg.HttpAuthorizationToken = some tok →
        ( HttpBehavior.uploadRequest st).headers.lookup "Authorization" = some tok)
      ∧ (cfg.HttpAuthorizationToken = none →
        ( HttpBehavior.uploadRequest st).headers.lookup "Authorization" = none)
      ∧ ( HttpBehavior.uploadRequest st).method = "POST")
    ∧ (∀ st e, SplunkBehavior.Init cfg dest = some (st, e) →
      (∀ tok, cfg.SplunkToken = some tok →
        (SplunkBehavior.uploadRequest st).headers.lookup "Authorization"
          = some ("Splunk " ++ tok))
      ∧ (cfg.SplunkToken = none →
        (SplunkBehavior.uploadRequest st).headers.lookup "Authorization" = none)
      ∧ (SplunkBehavior.uploadRequest st).method = "POST") := by
  constructor
  · intro st e h
    cases hct : cfg.HttpContentType with
    | none => simp [HttpBehavior.Init, hct] at h
    | some ct =>
      simp only [HttpBehavior.Init, hct, Option.some.injEq, Prod.mk.injEq] at h
      obtain ⟨hst, -⟩ := h
      subst hst
      refine ⟨?_, ?_, rfl⟩
      · intro tok htok
        simp [HttpBehavior.uploadRequest, htok, List.lookup]
      · intro htok
        simp [HttpBehavior.uploadRequest, htok, List.lookup]
  · intro st e h
    cases hct : cfg.HttpContentType with
    | none => simp [SplunkBehavior.Init, hct] at h
    | some ct =>
      simp only [SplunkBehavior.Init, hct, Option.some.injEq, Prod.mk.injEq] at h
      obtain ⟨hst, -⟩ := h
      subst hst
      refine ⟨?_, ?_, rfl⟩
      · intro tok htok
        simp [SplunkBehavior.uploadRequest, htok, List.lookup]
      · intro htok
        simp [SplunkBehavior.uploadRequest, htok, List.lookup]

/-- C7 witness: the header contract evaluated on concrete configurations with and
without credentials. -/
theorem authorization_header_witness :
    (∃ st, HttpBehavior.Init sampleAuthConfig "https://example.com" = some (st, none)
      ∧ ( HttpBehavior.uploadRequest st).headers.lookup "Authorization"
          = some "secret-token")
    ∧ (∃ st, SplunkBehavior.Init sampleAuthConfig "https://example.com" = some (st, none)
      ∧ (SplunkBehavior.uploadRequest st).headers.lookup "Authorization"
          = some ("Splunk " ++ "hec-token"))
    ∧ (∃ st, HttpBehavior.Init sampleNoAuthConfig "https://example.com" = some (st, none)
      ∧ ( HttpBehavior.uploadRequest st).headers.lookup "Authorization" = none) := by
  refine ⟨⟨_, rfl, ?_⟩, ⟨_, rfl, ?_⟩, ⟨_, rfl, ?_⟩⟩
  · exact (((authorization_header sampleAuthConfig "https://example.com").1 _ none rfl).1
      "secret-token" rfl)
  · exact (((authorization_header sampleAuthConfig "https://example.com").2 _ none rfl).1
      "hec-token" rfl)
  · exact (((authorization_header sampleNoAuthConfig "https://example.com").1 _ none rfl).2.1
      rfl)

/-- C8 counterexample: an ini that sets neither `bundle_size_max` nor
`bundle_send_timeout` (nor anything else) parses with both fields still at the Go
zero value 0, because the missing `output_type` takes the early return before the
defaults are assigned. -/
theorem bundle_defaults_counterexample :
    ∃ cfg errs, ParseConfig [] cb0 = some (cfg, errs)
      ∧ cfg.BundleSizeMax = 0
      ∧ cfg.BundleSendTimeout = 0
      ∧ cfg.BundleSizeMax ≠ 10 * 1024 * 1024
      ∧ cfg.BundleSendTimeout ≠ 5 * timeMinute := by
  exact ⟨_, _, rfl, rfl, rfl, by decide, by decide⟩

/-- C8 (amended): for every configuration whose `output_type` key is present and
whose selected output section sets neither bundle key, parsing yields
`BundleSizeMax = 10 MiB` and `BundleSendTimeout = 5 minutes` (300000000000 ns);
without an `output_type` the early return leaves both fields 0. -/
theorem bundle_defaults (input : IniFile) (cb : CbConfResult) (raw : String)
    (cfg : Configuration) (errs : List String)
    (hout : iniGet input "bridge" "output_type" = some raw)
    (hsize : iniGet input (normalizeOutputType raw) "bundle_size_max" = none)
    (htime : iniGet input (normalizeOutputType raw) "bundle_send_timeout" = none)
    (hpc : ParseConfig input cb = some (cfg, errs)) :
    cfg.BundleSizeMax = 10 * 1024 * 1024
    ∧ cfg.BundleSendTimeout = 5 * timeMinute
    ∧ 5 * timeMinute = 300000000000 := by
  obtain ⟨hc, -⟩ := parseConfig_shape input cb raw cfg errs hout hpc
  subst hc
  refine ⟨?_, ?_, by decide⟩
  · simp [mainConfig, bundleSizeMaxFor, hsize]
  · simp [mainConfig, bundleSendTimeoutFor, htime]

/-- C8 witness: the defaults on a concrete file-output ini. -/
theorem bundle_defaults_witness :
    ∃ cfg errs, ParseConfig sampleFileIni cb0 = some (cfg, errs)
      ∧ cfg.BundleSizeMax = 10 * 1024 * 1024
      ∧ cfg.BundleSendTimeout = 5 * timeMinute := by
  rcases hpc : ParseConfig sampleFileIni cb0 with _ | ⟨cfg, errs⟩
  · exact absurd hpc (by decide)
  · have h := bundle_defaults sampleFileIni cb0 "file" cfg errs (by decide) (by decide)
      (by decide) hpc
    exact ⟨cfg, errs, rfl, h.1, h.2.1⟩

/-- C9 counterexample: `bundle_send_timeout = 10000000000` parses as the decimal
integer 10^10, but the stored `BundleSendTimeout` is the int64-wrapped product
10^10 * 10^9 — a negative duration, not 10^10 seconds. -/
theorem bundle_send_timeout_counterexample :
    ∃ cfg errs, ParseConfig overflowTimeoutIni cb0 = some (cfg, errs)
      ∧ parseInt64 "10000000000" = some 10000000000
      ∧ cfg.BundleSendTimeout = -8446744073709551616
      ∧ cfg.BundleSendTimeout ≠ 10000000000 * timeSecond := by
  exact ⟨_, _, rfl, by decide, by decide, by decide⟩

/-- C9 (amended): a present `bundle_send_timeout` that parses as a decimal integer n
sets `BundleSendTimeout` to the int64-wrapped product n * 10^9 nanoseconds — equal to
n seconds whenever that product fits int64 — while a value that fails integer
parsing silently keeps the 5-minute default: the error list is exactly what it would
be with the key erased from the configuration. -/
theorem bundle_send_timeout_parse (input : IniFile) (cb : CbConfResult) (raw v : String)
    (cfg : Configuration) (errs : List String)
    (hout : iniGet input "bridge" "output_type" = some raw)
    (hkey : iniGet input (normalizeOutputType raw) "bundle_send_timeout" = some v)
    (hpc : ParseConfig input cb = some (cfg, errs)) :
    (∀ n, parseInt64 v = some n → cfg.BundleSendTimeout = wrapInt64 (n * timeSecond))
    ∧ (∀ n, parseInt64 v = some n → -(2 ^ 63) ≤ n * timeSecond → n * timeSecond < 2 ^ 63 →
        cfg.BundleSendTimeout = n * timeSecond)
    ∧ (parseInt64 v = none → cfg.BundleSendTimeout = 5 * timeMinute)
    ∧ errsFor (eraseKey input (normalizeOutputType raw) "bundle_send_timeout") cb
        (normalizeOutputType raw) = errs := by
  obtain ⟨hc, he⟩ := parseConfig_shape input cb raw cfg errs hout hpc
  subst hc
  subst he
  refine ⟨?_, ?_, ?_, ?_⟩
  · intro n hn
    simp [mainConfig, bundleSendTimeoutFor, hkey, hn, int64Mul]
  · intro n hn hl hu
    have h1 : Configuration.BundleSendTimeout (mainConfig input cb (normalizeOutputType raw))
        = wrapInt64 (n * timeSecond) := by
      simp [mainConfig, bundleSendTimeoutFor, hkey, hn, int64Mul]
    rw [h1, wrapInt64_eq_self _ hl hu]
  · intro hn
    simp [mainConfig, bundleSendTimeoutFor, hkey, hn]
  · exact errsFor_erase_bundleSendTimeout input cb (normalizeOutputType raw)

/-- C9 witness: the amended statement evaluated on a concrete unparsable value
(`bundle_send_timeout = 5m` keeps the 5-minute default) with an unchanged error
list. -/
theorem bundle_send_timeout_parse_witness :
    ∃ cfg errs, ParseConfig badTimeoutIni cb0 = some (cfg, errs)
      ∧ parseInt64 "5m" = none
      ∧ cfg.BundleSendTimeout = 5 * timeMinute
      ∧ errsFor (eraseKey badTimeoutIni "file" "bundle_send_timeout") cb0 "file" = errs := by
  rcases hpc : ParseConfig badTimeoutIni cb0 with _ | ⟨cfg, errs⟩
  · exact absurd hpc (by decide)
  · have h := bundle_send_timeout_parse badTimeoutIni cb0 "file" "5m" cfg errs (by decide)
      (by decide) hpc
    exact ⟨cfg, errs, rfl, by decide, h.2.2.1 (by decide), h.2.2.2⟩

/-- C10: for splunk output, `HttpContentType` is read from the `[http]` section's
`content_type` key for every configuration — so a `content_type` under `[splunk]`
can have no effect — and defaults to `application/json` when that key is absent. -/
theorem splunk_content_type (input : IniFile) (cb : CbConfResult) (raw : String)
    (cfg : Configuration) (errs : List String)
    (hout : iniGet input "bridge" "output_type" = some raw)
    (hsp : normalizeOutputType raw = "splunk")
    (hpc : ParseConfig input cb = some (cfg, errs)) :
    (∀ ct, iniGet input "http" "content_type" = some ct → cfg.HttpContentType = some ct)
    ∧ (iniGet input "http" "content_type" = none →
        cfg.HttpContentType = some "application/json") := by
  obtain ⟨hc, -⟩ := parseConfig_shape input cb raw cfg errs hout hpc
  subst hc
  rw [hsp]
  constructor
  · intro ct hct
    simp [mainConfig, httpContentTypeFor, hct]
  · intro hct
    simp [mainConfig, httpContentTypeFor, hct]

/-- C10 witness: a splunk ini with `content_type` only under `[splunk]` parses with
the `[http]` default `application/json`. -/
theorem splunk_content_type_witness :
    ∃ cfg errs, ParseConfig sampleSplunkIni cb0 = some (cfg, errs)
      ∧ iniGet sampleSplunkIni "splunk" "content_type" = some "text/weird"
      ∧ iniGet sampleSplunkIni "http" "content_type" = none
      ∧ cfg.HttpContentType = some "application/json" := by
  rcases hpc : ParseConfig sampleSplunkIni cb0 with _ | ⟨cfg, errs⟩
  · exact absurd hpc (by decide)
  · exact ⟨cfg, errs, rfl, by decide, by decide,
      (splunk_content_type sampleSplunkIni cb0 "splunk" cfg errs (by decide) (by decide)
        hpc).2 (by decide)⟩
